import Mathlib

/-!
Verification development for the docarray URL / video-tensor validation core.

Shallow embedding of:
  * src/docarray/typing/tensor/video/video_tensor.py (class VideoTensor)
  * src/docarray/typing/url/any_url.py (class AnyUrl)

External collaborators (pydantic base validation, the mimetypes table, the
network, the filesystem, os.path.abspath) are modelled as explicit oracle
parameters packaged in environment structures, so every definition is a pure,
executable Lean function of its inputs plus those oracles.
-/

namespace Docarray

/- ===== String helpers modelling the Python string primitives used by the
   source (all structurally recursive, hence kernel-reducible). ===== -/

/-- Boolean list-prefix test, structural recursion. -/
def listIsPre : List Char → List Char → Bool
  | [], _ => true
  | _ :: _, [] => false
  | a :: as, b :: bs => a == b && listIsPre as bs

/-- Models Python str.startswith. -/
def startsWithStr (s p : String) : Bool :=
  listIsPre p.toList s.toList

/-- Models Python str.endswith. -/
def endsWithStr (s p : String) : Bool :=
  listIsPre p.toList.reverse s.toList.reverse

/-- Models Python str.lower. -/
def lowerStr (s : String) : String :=
  String.mk (s.toList.map Char.toLower)

/-- Models Python value.split("?")[0]: the prefix of the string before the
first question mark (the whole string if none). -/
def stripQuery (s : String) : String :=
  String.mk (s.toList.takeWhile (fun c => !(c == '?')))

/-- Models os.path.isabs on a posix system: the path starts with a slash. -/
def isabs (s : String) : Bool :=
  startsWithStr s "/"

/-- Characters allowed after the first character of a URL scheme
(urllib.parse grammar). -/
def isSchemeChar (c : Char) : Bool :=
  c.isAlphanum || c == '+' || c == '-' || c == '.'

/-- Models urllib.parse.urlparse(s).scheme: the lowercased prefix before the
first colon, provided it starts with a letter and consists of scheme
characters; the empty string otherwise. -/
def schemeOf (s : String) : String :=
  if s.toList.contains ':' then
    match s.toList.takeWhile (fun c => !(c == ':')) with
    | [] => ""
    | c :: cs =>
      if c.isAlpha && (c :: cs).all isSchemeChar then
        String.mk ((c :: cs).map Char.toLower)
      else ""
  else ""

/- ===== VideoTensor (src/docarray/typing/tensor/video/video_tensor.py) ===== -/

/-- Outcome of calling a Python method: it either returns None normally or
raises an AttributeError carrying a message. -/
inductive PyResult where
  | retNone
  | attributeError (msg : String)
deriving DecidableEq

/-- Whether the method call raised. -/
def PyResult.isError : PyResult → Bool
  | .retNone => false
  | .attributeError _ => true

/-- The operations defined on the abstract VideoTensor class
(video_tensor.py lines 72-100). -/
inductive VTOp where
  | getitem
  | setitem
  | iter
  | len
  | toProtobuf
  | fromProtobuf
  | toJsonCompatible
  | fromNative
  | getCompBackend
deriving DecidableEq

/-- The message of every AttributeError raised by the abstract class. -/
def vtAbstractMsg : String := "This method should not be called on VideoTensor."

/-- Behaviour of each abstract-class operation, read off the method bodies in
video_tensor.py lines 72-100: the four dunder methods are literally `pass`
(they return None); the serialization and backend hooks raise AttributeError. -/
def vtOpOutcome : VTOp → PyResult
  | .getitem => .retNone
  | .setitem => .retNone
  | .iter => .retNone
  | .len => .retNone
  | .toProtobuf => .attributeError vtAbstractMsg
  | .fromProtobuf => .attributeError vtAbstractMsg
  | .toJsonCompatible => .attributeError vtAbstractMsg
  | .fromNative => .attributeError vtAbstractMsg
  | .getCompBackend => .attributeError vtAbstractMsg

/-- The runtime classes a value passed to VideoTensor.validate can belong to.
Class hierarchy facts encoded by the predicates below: VideoTorchTensor is a
TorchTensor which subclasses torch.Tensor; VideoTensorFlowTensor is a
TensorFlowTensor, which wraps (does not subclass) tf.Tensor; VideoNdArray
subclasses numpy.ndarray. -/
inductive TensorInput where
  | videoTorch
  | genericTorch
  | nativeTorch
  | videoTF
  | genericTF
  | nativeTF
  | videoNd
  | genericNd
  | other (tyName : String)
deriving DecidableEq

/-- isinstance(value, TorchTensor). -/
def isTorchTensorWrapper : TensorInput → Bool
  | .videoTorch => true
  | .genericTorch => true
  | _ => false

/-- isinstance(value, torch.Tensor): TorchTensor subclasses torch.Tensor. -/
def isTorchNativeTensor : TensorInput → Bool
  | .videoTorch => true
  | .genericTorch => true
  | .nativeTorch => true
  | _ => false

/-- isinstance(value, TensorFlowTensor). -/
def isTFTensorWrapper : TensorInput → Bool
  | .videoTF => true
  | .genericTF => true
  | _ => false

/-- isinstance(value, tf.Tensor): the TensorFlowTensor wrapper holds a
tf.Tensor but is not one. -/
def isTFNativeTensor : TensorInput → Bool
  | .nativeTF => true
  | _ => false

/-- isinstance(value, VideoNdArray). -/
def isVideoNdArrayInstance : TensorInput → Bool
  | .videoNd => true
  | _ => false

/-- isinstance(value, np.ndarray): VideoNdArray subclasses numpy.ndarray. -/
def isNdArrayInstance : TensorInput → Bool
  | .videoNd => true
  | .genericNd => true
  | _ => false

/-- Whether the value is the video kind specialization for some backend. -/
def isVideoWrapper : TensorInput → Bool
  | .videoTorch => true
  | .videoTF => true
  | .videoNd => true
  | _ => false

/-- The Python class name, used in the TypeError message. -/
def pyTypeName : TensorInput → String
  | .videoTorch => "VideoTorchTensor"
  | .genericTorch => "TorchTensor"
  | .nativeTorch => "torch.Tensor"
  | .videoTF => "VideoTensorFlowTensor"
  | .genericTF => "TensorFlowTensor"
  | .nativeTF => "tensorflow.Tensor"
  | .videoNd => "VideoNdArray"
  | .genericNd => "numpy.ndarray"
  | .other t => t

/-- Result of VideoTensor.validate: identity pass-through of the input object,
construction of a backend wrapper from a native array, delegation to
VideoNdArray.validate, or a TypeError. -/
inductive VTValidateResult where
  | same (v : TensorInput)
  | torchFromNative (v : TensorInput)
  | tfFromNative (v : TensorInput)
  | ndValidated (v : TensorInput)
  | typeError (msg : String)
deriving DecidableEq

/-- The TypeError message raised at video_tensor.py lines 131-134. -/
def vtTypeErrorMsg (v : TensorInput) : String :=
  "Expected one of [torch.Tensor, tensorflow.Tensor, numpy.ndarray] compatible type, got "
    ++ pyTypeName v

/-- VideoTensor.validate (video_tensor.py lines 106-134), with the two
module-level availability flags as parameters. The branch order is exactly
that of the source: TorchTensor wrapper, torch native, TensorFlowTensor
wrapper, tf native, VideoNdArray, np.ndarray, else TypeError. -/
def videoTensorValidate (torchAvailable tfAvailable : Bool)
    (value : TensorInput) : VTValidateResult :=
  if torchAvailable && isTorchTensorWrapper value then .same value
  else if torchAvailable && isTorchNativeTensor value then .torchFromNative value
  else if tfAvailable && isTFTensorWrapper value then .same value
  else if tfAvailable && isTFNativeTensor value then .tfFromNative value
  else if isVideoNdArrayInstance value then .same value
  else if isNdArrayInstance value then .ndValidated value
  else .typeError (vtTypeErrorMsg value)

/-- Whether the value is a wrapper or native array of some installed backend
(numpy always installed): the complement of the TypeError branch condition. -/
def matchesSomeBackend (torchAvailable tfAvailable : Bool) (v : TensorInput) : Bool :=
  (torchAvailable && (isTorchTensorWrapper v || isTorchNativeTensor v)) ||
  (tfAvailable && (isTFTensorWrapper v || isTFNativeTensor v)) ||
  isNdArrayInstance v

/- ===== AnyUrl (src/docarray/typing/url/any_url.py) ===== -/

/-- Error taxonomy of the URL pipeline: pydantic scheme/port/userinfo errors
raised by validate_parts, the two ValueError messages of validate, the
FileNotFoundError of load_bytes, and opaque errors of the pydantic base
validator. -/
inductive UrlError where
  | schemePermitted
  | portError
  | userInfoError
  | invalidFormat (msg : String)
  | fileNotFound (msg : String)
  | baseError (msg : String)
deriving DecidableEq

/-- Per-class configuration of a concrete URL kind: cls.mime_type(),
cls.allowed_extensions(), cls.allowed_schemes (the empty list models the
falsy pydantic default None, i.e. no restriction), cls.user_required. -/
structure UrlClass where
  mimeType : String
  allowedExtensions : List String
  allowedSchemes : List String
  userRequired : Bool

/-- A Python value as received by AnyUrl.validate: a str, or a non-str
object (isinstance(value, str) fails). -/
inductive PyInput where
  | pyStr (s : String)
  | nonStr (descr : String)
deriving DecidableEq

/-- The relative-path classification of any_url.py lines 60-68: a value is
relative iff it is a str that does not start with the literal characters
"http" and is not an absolute filesystem path. -/
def input_is_relative_path : PyInput → Bool
  | .pyStr s => !(startsWithStr s "http") && !(isabs s)
  | .nonStr _ => false

/-- Oracles for the externals consulted by AnyUrl.validate: os.path.abspath,
the pydantic super().validate (returning the canonical URL string on
success), mimetypes.guess_type (the mime component), and the
urllib.request.urlopen probe (error means the request raised; ok m means the
response headers had main content type m). -/
structure UrlEnv where
  abspath : String → String
  sval : String → Except UrlError String
  guessType : String → Option String
  probe : Except Unit String

/-- The abs_path value passed to super().validate (any_url.py lines 59-69):
the absolutized string when the input is relative, the input unchanged
otherwise. -/
def absInput (env : UrlEnv) (value : String) : String :=
  if input_is_relative_path (.pyStr value) then env.abspath value else value

/-- Mime detection of any_url.py lines 74-82: extension lookup on the
query-stripped value; only when that yields nothing, the network probe,
whose exceptions are swallowed (error means mimetype stays undetected). -/
def detectedMimetype (env : UrlEnv) (value : String) : Option String :=
  match env.guessType (stripQuery value) with
  | some m => some m
  | none =>
    match env.probe with
    | Except.ok m => some m
    | Except.error _ => none

/-- The extension whitelist fallback of any_url.py lines 87-90: some allowed
extension is a suffix of the value or of the query-stripped value. -/
def extensionAllowed (cls : UrlClass) (value : String) : Bool :=
  cls.allowedExtensions.any
    (fun ext => endsWithStr value ext || endsWithStr (stripQuery value) ext)

/-- ValueError message of any_url.py lines 91-93. -/
def formatErrMsg (value : String) : String :=
  "file " ++ value ++ " is not a valid file format for this class"

/-- ValueError message of any_url.py line 98. -/
def mimeErrMsg (value : String) (cls : UrlClass) : String :=
  "file " ++ value ++ " is not a " ++ cls.mimeType ++ " file format"

/-- AnyUrl.validate (any_url.py lines 50-103) on a str input: relative
rewrite, pydantic base validation, mime detection, format verification, and
the asymmetric return (original string when the input was relative, the
validated form otherwise). -/
def anyUrlValidate (cls : UrlClass) (env : UrlEnv) (value : String) :
    Except UrlError String :=
  match env.sval (absInput env value) with
  | Except.error e => Except.error e
  | Except.ok url =>
    match detectedMimetype env value with
    | none =>
      if extensionAllowed cls value then
        (if input_is_relative_path (.pyStr value) then Except.ok value
         else Except.ok url)
      else Except.error (UrlError.invalidFormat (formatErrMsg value))
    | some m =>
      if startsWithStr m cls.mimeType then
        (if input_is_relative_path (.pyStr value) then Except.ok value
         else Except.ok url)
      else Except.error (UrlError.invalidFormat (mimeErrMsg value cls))

/-- The parts record consulted by AnyUrl.validate_parts. -/
structure UrlParts where
  scheme : Option String
  port : Option String
  user : Option String
deriving DecidableEq

/-- The scheme check of any_url.py lines 114-120: an absent scheme passes; a
present scheme is rejected iff cls.allowed_schemes is truthy (nonempty) and
the lowercased scheme is not among them. -/
def schemeRejected (cls : UrlClass) (parts : UrlParts) : Bool :=
  match parts.scheme with
  | none => false
  | some s => !cls.allowedSchemes.isEmpty && !(cls.allowedSchemes.contains (lowerStr s))

/-- pydantic _validate_port: absent ports pass, numeric ports pass iff at
most 65535. -/
def portValid : Option String → Bool
  | none => true
  | some p =>
    match p.toNat? with
    | some n => Nat.ble n 65535
    | none => false

/-- AnyUrl.validate_parts (any_url.py lines 105-129): scheme check (relaxed
to allow a missing scheme), then port check, then user-info check. -/
def validate_parts (cls : UrlClass) (parts : UrlParts) (validatePort : Bool) :
    Except UrlError UrlParts :=
  if schemeRejected cls parts then Except.error UrlError.schemePermitted
  else if validatePort && !(portValid parts.port) then Except.error UrlError.portError
  else if cls.userRequired && (parts.user == none) then Except.error UrlError.userInfoError
  else Except.ok parts

/-- Oracles for load_bytes: the blocking HTTP fetch (url, the fixed
User-Agent header, the optional timeout, yielding the response body) and the
filesystem (path to contents when os.path.exists holds, none otherwise). -/
structure LoadEnv where
  fetch : String → String → Option Nat → List Nat
  file : String → Option (List Nat)

/-- The network schemes of any_url.py line 184. -/
def netSchemes : List String := ["http", "https", "data"]

/-- AnyUrl.load_bytes (any_url.py lines 178-193): a single fetch with the
fixed identifying header for network schemes, a single file read for
existing local paths, FileNotFoundError otherwise; no retry, no cache. -/
def load_bytes (env : LoadEnv) (self : String) (timeout : Option Nat) :
    Except UrlError (List Nat) :=
  if netSchemes.contains (schemeOf self) then
    Except.ok (env.fetch self "Mozilla/5.0" timeout)
  else
    match env.file self with
    | some bs => Except.ok bs
    | none =>
      Except.error (UrlError.fileNotFound
        ("`" ++ self ++ "` is not a URL or a valid local path"))

/- ===== Concrete instances used for witnesses and counterexamples ===== -/

/-- A video URL kind: required mime prefix "video", whitelist [".mp4"],
schemes http and https, no user required. -/
def clsVideo : UrlClass :=
  { mimeType := "video"
    allowedExtensions := [".mp4"]
    allowedSchemes := ["http", "https"]
    userRequired := false }

/-- An image URL kind with an extension whitelist containing ".png". -/
def clsImage : UrlClass :=
  { mimeType := "image"
    allowedExtensions := [".png"]
    allowedSchemes := ["http", "https"]
    userRequired := false }

/-- A kind with no scheme restriction (allowed_schemes falsy, as on the base
AnyUrl class). -/
def clsNoSchemes : UrlClass :=
  { mimeType := "video"
    allowedExtensions := [".mp4"]
    allowedSchemes := []
    userRequired := false }

/-- Environment where the mimetypes table resolves ".mp4" names to
"video/mp4", base validation echoes its input, and the network probe raises. -/
def envRel : UrlEnv :=
  { abspath := fun s => "/cwd/" ++ s
    sval := fun s => Except.ok s
    guessType := fun s => if endsWithStr s ".mp4" then some "video/mp4" else none
    probe := Except.error () }

/-- Environment where the mimetypes table gives "text/plain" for everything. -/
def envBadMime : UrlEnv :=
  { abspath := fun s => "/cwd/" ++ s
    sval := fun s => Except.ok s
    guessType := fun _ => some "text/plain"
    probe := Except.error () }

/-- Environment where no mime type is ever detectable and the probe raises. -/
def envNoMime : UrlEnv :=
  { abspath := fun s => "/cwd/" ++ s
    sval := fun s => Except.ok s
    guessType := fun _ => none
    probe := Except.error () }

/-- Concrete load_bytes environment: a one-byte file at /data/a.mp4, a fetch
oracle returning [7]. -/
def envLoad : LoadEnv :=
  { fetch := fun _ _ _ => [7]
    file := fun p => if p == "/data/a.mp4" then some [42] else none }

example : anyUrlValidate clsVideo envRel "file.mp4" = Except.ok "file.mp4" := rfl
example : anyUrlValidate clsVideo envRel "/cwd/file.mp4" = Except.ok "/cwd/file.mp4" := rfl
example : schemeOf "http://a.com/x" = "http" := rfl
example : schemeOf "file.mp4" = "" := rfl
example : load_bytes envLoad "/data/a.mp4" none = Except.ok [42] := rfl
example : load_bytes envLoad "http://a.com/x" (some 5) = Except.ok [7] := rfl
example : videoTensorValidate true false TensorInput.genericTorch
    = VTValidateResult.same TensorInput.genericTorch := rfl
example : anyUrlValidate clsImage envNoMime "httpfile.png" = Except.ok "httpfile.png" := rfl

/- ===== Claim theorems ===== -/

/-- C1 counterexample: the claim that every structural operation on the
abstract VideoTensor fails is false at the concrete operation indexed read:
the body of the dunder getitem method is `pass`, so the call returns None
normally and raises nothing. -/
theorem videoTensor_getitem_returns_none :
    vtOpOutcome VTOp.getitem = PyResult.retNone ∧
    (vtOpOutcome VTOp.getitem).isError = false :=
  ⟨rfl, rfl⟩

/-- C1 amended: on the abstract VideoTensor class, protobuf export, protobuf
import, JSON export, construction-from-native and the backend accessor raise
AttributeError with the message that the method should not be called on
VideoTensor, while indexed read, indexed write, iteration and length are
overridden as no-ops that return None without raising. -/
theorem videoTensor_abstract_ops_behavior :
    vtOpOutcome VTOp.getitem = PyResult.retNone ∧
    vtOpOutcome VTOp.setitem = PyResult.retNone ∧
    vtOpOutcome VTOp.iter = PyResult.retNone ∧
    vtOpOutcome VTOp.len = PyResult.retNone ∧
    vtOpOutcome VTOp.toProtobuf = PyResult.attributeError vtAbstractMsg ∧
    vtOpOutcome VTOp.fromProtobuf = PyResult.attributeError vtAbstractMsg ∧
    vtOpOutcome VTOp.toJsonCompatible = PyResult.attributeError vtAbstractMsg ∧
    vtOpOutcome VTOp.fromNative = PyResult.attributeError vtAbstractMsg ∧
    vtOpOutcome VTOp.getCompBackend = PyResult.attributeError vtAbstractMsg :=
  ⟨rfl, rfl, rfl, rfl, rfl, rfl, rfl, rfl, rfl⟩

/-- C5 counterexample: the claim that only the target kind VideoTensor
wrappers take the identity pass-through branch is false: with torch
installed, a generic TorchTensor that is not a VideoTorchTensor is also
returned unchanged by the first branch of VideoTensor.validate. -/
theorem videoTensor_passthrough_generic_wrapper :
    videoTensorValidate true false TensorInput.genericTorch
      = VTValidateResult.same TensorInput.genericTorch ∧
    isVideoWrapper TensorInput.genericTorch = false :=
  ⟨rfl, rfl⟩

/-- C5 amended: VideoTensor.validate returns its input unchanged exactly when
the input is a TorchTensor wrapper (video or generic) with torch installed, a
TensorFlowTensor wrapper (video or generic) with tensorflow installed, or a
VideoNdArray; in particular every target-kind wrapper of an available backend
passes through unchanged, but so do the generic torch and tensorflow
wrappers. -/
theorem videoTensor_passthrough_characterization
    (torchAvailable tfAvailable : Bool) (v : TensorInput) :
    videoTensorValidate torchAvailable tfAvailable v = VTValidateResult.same v ↔
      ((torchAvailable = true ∧ isTorchTensorWrapper v = true) ∨
       (tfAvailable = true ∧ isTFTensorWrapper v = true) ∨
       v = TensorInput.videoNd) := by
  cases torchAvailable <;> cases tfAvailable <;> cases v <;>
    simp [videoTensorValidate, isTorchTensorWrapper, isTorchNativeTensor,
      isTFTensorWrapper, isTFNativeTensor, isVideoNdArrayInstance,
      isNdArrayInstance]

/-- C5 witness: the characterization applied at the video torch wrapper with
torch installed yields the identity pass-through. -/
theorem videoTensor_passthrough_characterization_witness :
    videoTensorValidate true false TensorInput.videoTorch
      = VTValidateResult.same TensorInput.videoTorch :=
  (videoTensor_passthrough_characterization true false TensorInput.videoTorch).mpr
    (Or.inl ⟨rfl, rfl⟩)

/-- C6: every input that is neither a backend wrapper nor a native array of
an installed backend makes VideoTensor.validate raise exactly one error kind:
the TypeError whose message names torch.Tensor, tensorflow.Tensor and
numpy.ndarray and the actual runtime type received; no silent coercion. -/
theorem videoTensor_unsupported_type_error
    (torchAvailable tfAvailable : Bool) (v : TensorInput)
    (h : matchesSomeBackend torchAvailable tfAvailable v = false) :
    videoTensorValidate torchAvailable tfAvailable v
      = VTValidateResult.typeError
          ("Expected one of [torch.Tensor, tensorflow.Tensor, numpy.ndarray] compatible type, got "
            ++ pyTypeName v) := by
  cases torchAvailable <;> cases tfAvailable <;> cases v <;>
    simp_all [matchesSomeBackend, videoTensorValidate, vtTypeErrorMsg,
      isTorchTensorWrapper, isTorchNativeTensor, isTFTensorWrapper,
      isTFNativeTensor, isVideoNdArrayInstance, isNdArrayInstance]

/-- C6 witness: a plain integer, with both optional backends installed, is
rejected with the TypeError naming the three families and the received type. -/
theorem videoTensor_unsupported_type_error_witness :
    matchesSomeBackend true true (TensorInput.other "<class int>") = false ∧
    videoTensorValidate true true (TensorInput.other "<class int>")
      = VTValidateResult.typeError
          ("Expected one of [torch.Tensor, tensorflow.Tensor, numpy.ndarray] compatible type, got <class int>") :=
  ⟨rfl, videoTensor_unsupported_type_error true true (TensorInput.other "<class int>") rfl⟩

/-- Helper: a successful AnyUrl.validate call exposes a successful base
validation, and the returned string is the original input when the input was
classified relative, the base-validated form otherwise. Shared by several
claim proofs. -/
theorem anyUrlValidate_ok_sval (cls : UrlClass) (env : UrlEnv) (s r : String)
    (h : anyUrlValidate cls env s = Except.ok r) :
    ∃ u, env.sval (absInput env s) = Except.ok u ∧
      r = (if input_is_relative_path (PyInput.pyStr s) then s else u) := by
  unfold anyUrlValidate at h
  cases hsv : env.sval (absInput env s) with
  | error e => simp [hsv] at h
  | ok u =>
    refine ⟨u, rfl, ?_⟩
    simp only [hsv] at h
    by_cases hc : input_is_relative_path (PyInput.pyStr s) = true
    · simp only [hc, if_true] at h ⊢
      cases hdm : detectedMimetype env s <;> simp only [hdm] at h <;>
        split at h <;> simp_all
    · simp only [Bool.not_eq_true] at hc
      simp only [hc, Bool.false_eq_true, if_false] at h ⊢
      cases hdm : detectedMimetype env s <;> simp only [hdm] at h <;>
        split at h <;> simp_all

/-- C2: when a string input classified as relative passes the full
validation pipeline, the returned string is the original relative string;
when an input not classified as relative passes, the returned string is the
form produced by the base URL grammar validation of the input itself. -/
theorem anyUrl_validate_return_form (cls : UrlClass) (env : UrlEnv) (s r : String)
    (h : anyUrlValidate cls env s = Except.ok r) :
    (input_is_relative_path (PyInput.pyStr s) = true → r = s) ∧
    (input_is_relative_path (PyInput.pyStr s) = false → env.sval s = Except.ok r) := by
  obtain ⟨u, hsv, hr⟩ := anyUrlValidate_ok_sval cls env s r h
  constructor
  · intro hrel
    simp only [hrel, if_true] at hr
    exact hr
  · intro hrel
    simp only [hrel, Bool.false_eq_true, if_false] at hr
    unfold absInput at hsv
    simp only [hrel, Bool.false_eq_true, if_false] at hsv
    rw [hr]
    exact hsv

/-- C2 witness: in the concrete environment envRel, validating the relative
string "file.mp4" returns it verbatim and validating the absolute string
"/cwd/file.mp4" returns the base-validated form. -/
theorem anyUrl_validate_return_form_witness :
    ("file.mp4" : String) = "file.mp4" ∧
    envRel.sval "/cwd/file.mp4" = Except.ok "/cwd/file.mp4" :=
  ⟨(anyUrl_validate_return_form clsVideo envRel "file.mp4" "file.mp4" rfl).1 rfl,
   (anyUrl_validate_return_form clsVideo envRel "/cwd/file.mp4" "/cwd/file.mp4" rfl).2 rfl⟩

/-- C3 counterexample: the claim that a constructed URL value never stores a
relative textual form is false: validating the relative string "file.mp4"
succeeds and stores exactly "file.mp4", which is neither an absolute path
nor a string with a URL scheme. -/
theorem anyUrl_stores_relative_counterexample :
    anyUrlValidate clsVideo envRel "file.mp4" = Except.ok "file.mp4" ∧
    isabs "file.mp4" = false ∧
    schemeOf "file.mp4" = "" :=
  ⟨rfl, rfl, rfl⟩

/-- C3 amended: a relative input that passes validation is persisted as the
original relative string (relative paths are deliberately not canonicalized
in the stored form); only non-relative inputs are stored in their
base-validated form. -/
theorem anyUrl_relative_persisted (cls : UrlClass) (env : UrlEnv) (s r : String)
    (hrel : input_is_relative_path (PyInput.pyStr s) = true)
    (h : anyUrlValidate cls env s = Except.ok r) : r = s := by
  obtain ⟨u, _, hr⟩ := anyUrlValidate_ok_sval cls env s r h
  simp only [hrel, if_true] at hr
  exact hr

/-- C3 amended witness: applied to the relative string "file.mp4" in the
concrete environment envRel. -/
theorem anyUrl_relative_persisted_witness :
    input_is_relative_path (PyInput.pyStr "file.mp4") = true ∧
    anyUrlValidate clsVideo envRel "file.mp4" = Except.ok "file.mp4" ∧
    ("file.mp4" : String) = "file.mp4" :=
  ⟨rfl, rfl, anyUrl_relative_persisted clsVideo envRel "file.mp4" "file.mp4" rfl rfl⟩

/-- C4: when a mime type is detected (extension lookup or network probe),
acceptance depends only on the detected type starting with the required
prefix, and the extension whitelist is never consulted (the result is
invariant under changing the whitelist); when no mime type is detected, the
value is accepted iff its literal suffix (with or without the query string)
matches an allowed extension, with no further format check. -/
theorem anyUrl_mime_precedence (cls : UrlClass) (env : UrlEnv) (s u : String)
    (hsv : env.sval (absInput env s) = Except.ok u) :
    (∀ m, detectedMimetype env s = some m →
      (anyUrlValidate cls env s =
        (if startsWithStr m cls.mimeType then
          (if input_is_relative_path (PyInput.pyStr s) then Except.ok s
           else Except.ok u)
         else Except.error (UrlError.invalidFormat (mimeErrMsg s cls)))) ∧
      (∀ exts, anyUrlValidate { cls with allowedExtensions := exts } env s
        = anyUrlValidate cls env s)) ∧
    (detectedMimetype env s = none →
      anyUrlValidate cls env s =
        (if extensionAllowed cls s then
          (if input_is_relative_path (PyInput.pyStr s) then Except.ok s
           else Except.ok u)
         else Except.error (UrlError.invalidFormat (formatErrMsg s)))) := by
  constructor
  · intro m hdm
    constructor
    · simp only [anyUrlValidate, hsv, hdm]
    · intro exts
      simp only [anyUrlValidate, hsv, hdm, mimeErrMsg]
  · intro hdm
    simp only [anyUrlValidate, hsv, hdm]

/-- C4 witness: in envBadMime the detected mime type "text/plain" mismatches
the required prefix "video" of clsVideo, so "file.mp4" is rejected even
though its extension ".mp4" is whitelisted. -/
theorem anyUrl_mime_precedence_witness :
    detectedMimetype envBadMime "file.mp4" = some "text/plain" ∧
    extensionAllowed clsVideo "file.mp4" = true ∧
    anyUrlValidate clsVideo envBadMime "file.mp4"
      = Except.error (UrlError.invalidFormat (mimeErrMsg "file.mp4" clsVideo)) := by
  refine ⟨rfl, rfl, ?_⟩
  have h := ((anyUrl_mime_precedence clsVideo envBadMime "file.mp4" "/cwd/file.mp4"
    rfl).1 "text/plain" rfl).1
  rw [h]
  rfl

/-- C7: when extension-based mime lookup fails and the network probe raises,
the error is swallowed: the mime type stays undetected and validation
proceeds to the extension-whitelist fallback, so a probe failure alone never
rejects (in particular the call still accepts whenever the base validation
succeeds and an allowed extension matches). -/
theorem anyUrl_probe_failure_swallowed (cls : UrlClass) (env : UrlEnv) (s : String)
    (hg : env.guessType (stripQuery s) = none)
    (hp : env.probe = Except.error ()) :
    detectedMimetype env s = none ∧
    (∀ u, env.sval (absInput env s) = Except.ok u →
      anyUrlValidate cls env s =
        (if extensionAllowed cls s then
          (if input_is_relative_path (PyInput.pyStr s) then Except.ok s
           else Except.ok u)
         else Except.error (UrlError.invalidFormat (formatErrMsg s)))) := by
  have hdm : detectedMimetype env s = none := by
    simp [detectedMimetype, hg, hp]
  refine ⟨hdm, ?_⟩
  intro u hsv
  simp only [anyUrlValidate, hsv, hdm]

/-- C7 witness: in envNoMime (lookup fails, probe raises) the whitelisted
"file.mp4" is still accepted, so the probe failure was not propagated. -/
theorem anyUrl_probe_failure_swallowed_witness :
    envNoMime.guessType (stripQuery "file.mp4") = none ∧
    envNoMime.probe = Except.error () ∧
    detectedMimetype envNoMime "file.mp4" = none ∧
    anyUrlValidate clsVideo envNoMime "file.mp4" = Except.ok "file.mp4" := by
  have h := anyUrl_probe_failure_swallowed clsVideo envNoMime "file.mp4" rfl rfl
  refine ⟨rfl, rfl, h.1, ?_⟩
  have h2 := h.2 "/cwd/file.mp4" rfl
  rw [h2]
  rfl

/-- C10: the relative classification of AnyUrl.validate tests only the
literal four-character prefix "http" (plus absolute-path status): every
string starting with "http" — even the scheme-less relative filename
"httpfile.png" — is classified non-relative, is never rewritten to its
absolute form, and on success yields the base-validated form of the string
itself; every non-string input also skips the relative rewrite. -/
theorem anyUrl_http_prefix_classification (s : String)
    (hs : startsWithStr s "http" = true) :
    input_is_relative_path (PyInput.pyStr s) = false ∧
    (∀ d, input_is_relative_path (PyInput.nonStr d) = false) ∧
    (∀ env : UrlEnv, absInput env s = s) ∧
    (∀ cls env r, anyUrlValidate cls env s = Except.ok r →
      env.sval s = Except.ok r) := by
  have hrel : input_is_relative_path (PyInput.pyStr s) = false := by
    simp [input_is_relative_path, hs]
  refine ⟨hrel, fun d => rfl, ?_, ?_⟩
  · intro env
    simp [absInput, hrel]
  · intro cls env r h
    obtain ⟨u, hsv, hr⟩ := anyUrlValidate_ok_sval cls env s r h
    simp only [hrel, Bool.false_eq_true, if_false] at hr
    unfold absInput at hsv
    simp only [hrel, Bool.false_eq_true, if_false] at hsv
    rw [hr]
    exact hsv

/-- C10 witness: "httpfile.png" starts with "http", is classified
non-relative, and validating it in envNoMime returns the base-validated
string itself. -/
theorem anyUrl_http_prefix_classification_witness :
    startsWithStr "httpfile.png" "http" = true ∧
    input_is_relative_path (PyInput.pyStr "httpfile.png") = false ∧
    envNoMime.sval "httpfile.png" = Except.ok "httpfile.png" := by
  have h := anyUrl_http_prefix_classification "httpfile.png" rfl
  exact ⟨rfl, h.1, h.2.2.2 clsImage envNoMime "httpfile.png" rfl⟩

/-- C8: load_bytes on a value whose parsed scheme is a network scheme
performs the single blocking fetch with the fixed identifying client header
and the given timeout and returns its body; on a non-network value it
returns exactly the contents of an existing file at that path, and fails
with the not-a-URL-or-valid-local-path error when no such file exists. -/
theorem load_bytes_behavior (env : LoadEnv) (self : String) (t : Option Nat) :
    (netSchemes.contains (schemeOf self) = true →
      load_bytes env self t = Except.ok (env.fetch self "Mozilla/5.0" t)) ∧
    (netSchemes.contains (schemeOf self) = false →
      (∀ bs, env.file self = some bs → load_bytes env self t = Except.ok bs) ∧
      (env.file self = none →
        load_bytes env self t = Except.error (UrlError.fileNotFound
          ("`" ++ self ++ "` is not a URL or a valid local path")))) := by
  constructor
  · intro hn
    simp only [load_bytes, hn, if_true]
  · intro hn
    constructor
    · intro bs hf
      simp only [load_bytes, hn, Bool.false_eq_true, if_false, hf]
    · intro hf
      simp only [load_bytes, hn, Bool.false_eq_true, if_false, hf]

/-- C8 witness: in the concrete envLoad, a network URL returns the fetched
body, the existing path /data/a.mp4 returns the file contents, and a missing
path fails with the FileNotFoundError message. -/
theorem load_bytes_behavior_witness :
    load_bytes envLoad "https://a.com/x" (some 3) = Except.ok [7] ∧
    load_bytes envLoad "/data/a.mp4" none = Except.ok [42] ∧
    load_bytes envLoad "/missing" none = Except.error (UrlError.fileNotFound
      "`/missing` is not a URL or a valid local path") :=
  ⟨(load_bytes_behavior envLoad "https://a.com/x" (some 3)).1 rfl,
   ((load_bytes_behavior envLoad "/data/a.mp4" none).2 rfl).1 [42] rfl,
   ((load_bytes_behavior envLoad "/missing" none).2 rfl).2 rfl⟩

/-- C9 counterexample: the claim that a present scheme is accepted only when
it belongs to the allowed-scheme set is false for a kind whose
allowed-scheme set is empty (the falsy pydantic default, as on the base
AnyUrl class): the scheme "ftp" is not in the empty allowed set, yet
validate_parts accepts the parts. -/
theorem validate_parts_empty_scheme_set_counterexample :
    validate_parts clsNoSchemes { scheme := some "ftp", port := none, user := none } true
      = Except.ok { scheme := some "ftp", port := none, user := none } ∧
    clsNoSchemes.allowedSchemes.contains "ftp" = false :=
  ⟨rfl, rfl⟩

/-- C9 amended: an absent scheme never triggers the scheme rejection; a
present scheme triggers it exactly when the allowed-scheme set is nonempty
and its lowercased form is not in the set (so with an empty set every scheme
is accepted); and validate_parts returns the scheme-permitted error exactly
when the scheme check rejects. -/
theorem validate_parts_scheme_characterization (cls : UrlClass)
    (parts : UrlParts) (vp : Bool) :
    (parts.scheme = none → schemeRejected cls parts = false) ∧
    (∀ s, parts.scheme = some s →
      (schemeRejected cls parts = true ↔
        (cls.allowedSchemes ≠ [] ∧
          cls.allowedSchemes.contains (lowerStr s) = false))) ∧
    (validate_parts cls parts vp = Except.error UrlError.schemePermitted ↔
      schemeRejected cls parts = true) := by
  refine ⟨?_, ?_, ?_⟩
  · intro hn
    simp [schemeRejected, hn]
  · intro s hs
    simp [schemeRejected, hs, List.isEmpty_iff]
  · constructor
    · intro h
      by_contra hc
      simp only [Bool.not_eq_true] at hc
      simp only [validate_parts, hc, Bool.false_eq_true, if_false] at h
      split at h
      · exact absurd h (by simp)
      · split at h
        · exact absurd h (by simp)
        · exact absurd h (by simp)
    · intro h
      simp [validate_parts, h]

/-- C9 amended witness: for clsVideo (allowed schemes http and https) the
present scheme "ftp" rejects with the scheme-permitted error, applied
through the characterization. -/
theorem validate_parts_scheme_characterization_witness :
    validate_parts clsVideo { scheme := some "ftp", port := none, user := none } true
      = Except.error UrlError.schemePermitted :=
  (validate_parts_scheme_characterization clsVideo
    { scheme := some "ftp", port := none, user := none } true).2.2.mpr rfl

end Docarray
